import Mathlib

/-!
Shallow embedding of the authentication core of the backend template:
`AuthService` (signup/login/OTP lifecycle/password reset) and
`JwtStrategy.validate`.

Modelling conventions:
* Time is `Nat`, milliseconds since the epoch (`Date.getTime()`).
* The persistence layer (`prisma.user`) is a `List User`; `findUnique` by a
  field is `List.find?` on that field, `findFirst` with a compound filter is
  `List.find?` with the compound predicate, and `update` by id maps over the
  list (the spec §6 store contract: `findByField`, `findById`, `update`).
* External nondeterminism is passed in explicitly: the generated OTP digits,
  the generated reset token, the bcrypt hash of a new password, the
  `bcrypt.compare` oracle, and whether an SMS/mail dispatch succeeds.
* A thrown NestJS exception is `Except.error` of `AuthError`; an uncaught
  exception from an external collaborator (SMS/mail transport) is modelled as
  `AuthError.external`.
* `Date.toDateString()` equality (same local calendar date) is embedded as
  equality of the day index `t / 86400000` (UTC day boundary; a fixed local
  offset is a constant shift of the boundary and does not affect the claims).
-/

/-- Calendar-day index of a millisecond timestamp; two timestamps have equal
`toDateString()` exactly when their day indices agree. -/
def toDateStringNat (t : Nat) : Nat := t / 86400000

/-- Configuration loaded in the `AuthService` constructor, with the source
defaults `OTP_EXPIRY_MINUTES=10`, `OTP_DAILY_LIMIT=3`,
`OTP_MIN_INTERVAL_MINUTES=5`. -/
structure Config where
  otpExpiryMinutes : Nat
  otpDailyLimit : Nat
  otpMinIntervalMinutes : Nat
deriving Repr, DecidableEq

def defaultConfig : Config :=
  { otpExpiryMinutes := 10, otpDailyLimit := 3, otpMinIntervalMinutes := 5 }

/-- The `User` record as the authentication core touches it (Prisma model
fields used by `AuthService` and `JwtStrategy`). -/
structure User where
  id : String
  firstName : String
  lastName : String
  email : String
  phone : String
  password : String
  role : String
  isActive : Bool
  isPhoneVerified : Bool
  isEmailVerified : Bool
  phoneVerificationOTP : Option String
  phoneVerificationOTPExpires : Option Nat
  emailVerificationOTP : Option String
  emailVerificationOTPExpires : Option Nat
  resetPasswordOTP : Option String
  resetPasswordOTPExpires : Option Nat
  resetPasswordToken : Option String
  resetPasswordExpires : Option Nat
  lastOtpRequestTime : Option Nat
  otpRequestCount : Nat
deriving Repr, DecidableEq

/-- NestJS exceptions thrown by the service, and `external` for an uncaught
exception propagating out of an external collaborator call. -/
inductive AuthError where
  | badRequest (msg : String)
  | unauthorized (msg : String)
  | forbidden (msg : String)
  | external (msg : String)
deriving Repr, DecidableEq

/-- Outbound SMS dispatches (`SmsService` calls with their arguments). -/
inductive SmsMsg where
  | passwordResetOTP (phone otp firstName : String)
  | phoneVerificationOTP (phone otp firstName : String)
deriving Repr, DecidableEq

/-- Outbound mail dispatches (`MailService` calls with their arguments). -/
inductive MailMsg where
  | resetToken (email token firstName : String)
deriving Repr, DecidableEq

instance exceptDecEq {ε α : Type} [DecidableEq ε] [DecidableEq α] :
    DecidableEq (Except ε α) := fun x y =>
  match x, y with
  | .error a, .error b =>
    if h : a = b then isTrue (by rw [h])
    else isFalse (by intro hc; cases hc; exact h rfl)
  | .ok a, .ok b =>
    if h : a = b then isTrue (by rw [h])
    else isFalse (by intro hc; cases hc; exact h rfl)
  | .error _, .ok _ => isFalse (by intro hc; cases hc)
  | .ok _, .error _ => isFalse (by intro hc; cases hc)

/-- Result of one service call: the store after the call, the dispatches that
were attempted, and the returned value or thrown exception. -/
structure Outcome (α : Type) where
  db : List User
  sms : List SmsMsg
  mails : List MailMsg
  res : Except AuthError α
deriving Repr, DecidableEq

/-- `prisma.user.findUnique(\x7b where: \x7b phone \x7d \x7d)`. -/
def findByPhone (db : List User) (phone : String) : Option User :=
  db.find? (fun u => u.phone == phone)

/-- `prisma.user.findUnique(\x7b where: \x7b id \x7d \x7d)`. -/
def findById (db : List User) (i : String) : Option User :=
  db.find? (fun u => u.id == i)

/-- `prisma.user.findUnique(\x7b where: \x7b email \x7d \x7d)`. -/
def findByEmail (db : List User) (email : String) : Option User :=
  db.find? (fun u => u.email == email)

/-- `prisma.user.update(\x7b where: \x7b id \x7d, data \x7d)` with the data
written as a record transformer. -/
def updateById (db : List User) (i : String) (f : User → User) : List User :=
  db.map (fun u => if u.id = i then f u else u)

/-- The minimum-interval rate-limit test: the source computes
`(now - lastOtpRequestTime) / 60000` minutes as a float and compares it
`< otpMinIntervalMinutes`; over `Nat` this is
`now - t < otpMinIntervalMinutes * 60000`. `false` when the user has no
`lastOtpRequestTime`. -/
def minIntervalHit (user : User) (now : Nat) (cfg : Config) : Bool :=
  match user.lastOtpRequestTime with
  | some t => now - t < cfg.otpMinIntervalMinutes * 60000
  | none => false

/-- `Math.ceil` of a millisecond quantity expressed in minutes. -/
def ceilMinutesOfMs (ms : Nat) : Nat := (ms + 59999) / 60000

/-- The wait message built in the rate-limit branch:
`Math.ceil(otpMinIntervalMinutes - minutesSinceLastRequest)` minutes. -/
def waitMessage (user : User) (now : Nat) (cfg : Config) : String :=
  match user.lastOtpRequestTime with
  | some t =>
      "Please wait " ++
        toString (ceilMinutesOfMs (cfg.otpMinIntervalMinutes * 60000 - (now - t))) ++
        " minute(s) before requesting another OTP"
  | none => ""

/-- The daily-reset condition: `lastOtpRequestTime` present and its calendar
date differs from today. -/
def dailyResetDue (user : User) (now : Nat) : Bool :=
  match user.lastOtpRequestTime with
  | some t => toDateStringNat t != toDateStringNat now
  | none => false

/-- The daily-limit error message of both OTP generators. -/
def dailyLimitMessage (limit : Nat) : String :=
  "You have exceeded the maximum number of OTP requests (" ++ toString limit ++
    ") for today"

/-- `AuthService.generatePasswordResetOTP(phone)`.
`otp` is the random 6-digit code drawn this call; `smsOk` is whether
`smsService.sendPasswordResetOTP` succeeds. Note the source keeps using the
initially fetched `user` record after the daily-reset `update`, so the
daily-cap check and the on-success increment read the pre-reset count. -/
def generatePasswordResetOTP (cfg : Config) (db : List User) (phone : String)
    (now : Nat) (otp : String) (smsOk : Bool) : Outcome Unit :=
  match findByPhone db phone with
  | none => ⟨db, [], [], .error (.badRequest "User not found")⟩
  | some user =>
    if minIntervalHit user now cfg then
      ⟨db, [], [], .error (.badRequest (waitMessage user now cfg))⟩
    else
      let db1 :=
        if dailyResetDue user now then
          updateById db user.id (fun u => { u with otpRequestCount := 0 })
        else db
      if cfg.otpDailyLimit ≤ user.otpRequestCount then
        ⟨db1, [], [], .error (.badRequest (dailyLimitMessage cfg.otpDailyLimit))⟩
      else
        let otpExpiry := now + cfg.otpExpiryMinutes * 60000
        let db2 := updateById db1 user.id (fun u =>
          { u with
            resetPasswordOTP := some otp,
            resetPasswordOTPExpires := some otpExpiry,
            lastOtpRequestTime := some now,
            otpRequestCount := user.otpRequestCount + 1 })
        ⟨db2, [SmsMsg.passwordResetOTP phone otp user.firstName], [],
          if smsOk then .ok ()
          else .error (.badRequest "Failed to send OTP. Please try again later.")⟩

/-- `AuthService.generatePhoneVerificationOTP(userId)`. Same rate-limit logic
as the reset generator (including the stale-count reads), preceded by the
already-verified guard, writing the phone-verification slot; the SMS dispatch
is not wrapped in try/catch, so its failure propagates as an external error. -/
def generatePhoneVerificationOTP (cfg : Config) (db : List User) (userId : String)
    (now : Nat) (otp : String) (smsOk : Bool) : Outcome Unit :=
  match findById db userId with
  | none => ⟨db, [], [], .error (.badRequest "User not found")⟩
  | some user =>
    if user.isPhoneVerified then
      ⟨db, [], [], .error (.badRequest "Phone number is already verified")⟩
    else if minIntervalHit user now cfg then
      ⟨db, [], [], .error (.badRequest (waitMessage user now cfg))⟩
    else
      let db1 :=
        if dailyResetDue user now then
          updateById db user.id (fun u => { u with otpRequestCount := 0 })
        else db
      if cfg.otpDailyLimit ≤ user.otpRequestCount then
        ⟨db1, [], [], .error (.badRequest (dailyLimitMessage cfg.otpDailyLimit))⟩
      else
        let otpExpiry := now + cfg.otpExpiryMinutes * 60000
        let db2 := updateById db1 user.id (fun u =>
          { u with
            phoneVerificationOTP := some otp,
            phoneVerificationOTPExpires := some otpExpiry,
            lastOtpRequestTime := some now,
            otpRequestCount := user.otpRequestCount + 1 })
        ⟨db2, [SmsMsg.phoneVerificationOTP user.phone otp user.firstName], [],
          if smsOk then .ok ()
          else .error (.external "SMS dispatch failed")⟩

/-- `AuthService.verifyPhone(phone, otp)`. The empty-slot test is JS
truthiness (`!user.phoneVerificationOTP || !user.phoneVerificationOTPExpires`),
so a stored empty-string code also counts as no OTP. -/
def verifyPhone (db : List User) (phone otp : String) (now : Nat) : Outcome Unit :=
  match findByPhone db phone with
  | none => ⟨db, [], [], .error (.badRequest "User not found")⟩
  | some user =>
    if user.isPhoneVerified then
      ⟨db, [], [], .error (.badRequest "Phone number is already verified")⟩
    else
      match user.phoneVerificationOTP, user.phoneVerificationOTPExpires with
      | some code, some expires =>
        if code = "" then
          ⟨db, [], [], .error (.badRequest "No OTP found. Please request a new one")⟩
        else if expires < now then
          ⟨db, [], [], .error (.badRequest "OTP has expired. Please request a new one")⟩
        else if code ≠ otp then
          ⟨db, [], [], .error (.badRequest "Invalid OTP")⟩
        else
          ⟨updateById db user.id (fun u =>
            { u with
              isPhoneVerified := true,
              phoneVerificationOTP := none,
              phoneVerificationOTPExpires := none }), [], [], .ok ()⟩
      | _, _ =>
        ⟨db, [], [], .error (.badRequest "No OTP found. Please request a new one")⟩

/-- `AuthService.resetPasswordWithOTP(phone, otp, newPassword)`.
`hashedNewPassword` is the bcrypt hash computed for the new password. -/
def resetPasswordWithOTP (db : List User) (phone otp hashedNewPassword : String)
    (now : Nat) : Outcome Unit :=
  match findByPhone db phone with
  | none => ⟨db, [], [], .error (.badRequest "User not found")⟩
  | some user =>
    match user.resetPasswordOTP, user.resetPasswordOTPExpires with
    | some code, some expires =>
      if code = "" then
        ⟨db, [], [], .error (.badRequest "No OTP found. Please request a new one")⟩
      else if expires < now then
        ⟨db, [], [], .error (.badRequest "OTP has expired. Please request a new one")⟩
      else if code ≠ otp then
        ⟨db, [], [], .error (.badRequest "Invalid OTP")⟩
      else
        ⟨updateById db user.id (fun u =>
          { u with
            password := hashedNewPassword,
            resetPasswordOTP := none,
            resetPasswordOTPExpires := none }), [], [], .ok ()⟩
    | _, _ =>
      ⟨db, [], [], .error (.badRequest "No OTP found. Please request a new one")⟩

/-- `AuthService.verifyEmail(email, otp)`: structurally the phone flow against
the email slot. -/
def verifyEmail (db : List User) (email otp : String) (now : Nat) : Outcome Unit :=
  match findByEmail db email with
  | none => ⟨db, [], [], .error (.badRequest "User not found")⟩
  | some user =>
    if user.isEmailVerified then
      ⟨db, [], [], .error (.badRequest "Email is already verified")⟩
    else
      match user.emailVerificationOTP, user.emailVerificationOTPExpires with
      | some code, some expires =>
        if code = "" then
          ⟨db, [], [], .error (.badRequest "No OTP found. Please request a new one")⟩
        else if expires < now then
          ⟨db, [], [], .error (.badRequest "OTP has expired. Please request a new one")⟩
        else if code ≠ otp then
          ⟨db, [], [], .error (.badRequest "Invalid OTP")⟩
        else
          ⟨updateById db user.id (fun u =>
            { u with
              isEmailVerified := true,
              emailVerificationOTP := none,
              emailVerificationOTPExpires := none }), [], [], .ok ()⟩
      | _, _ =>
        ⟨db, [], [], .error (.badRequest "No OTP found. Please request a new one")⟩

/-- `AuthService.generateResetToken(email)`. `token` is the random 32-byte hex
token drawn this call; `mailOk` is whether `mailService.sendResetToken`
succeeds (not wrapped in try/catch in the source). An unknown email returns
silently. -/
def generateResetToken (db : List User) (email token : String) (now : Nat)
    (mailOk : Bool) : Outcome Unit :=
  match findByEmail db email with
  | none => ⟨db, [], [], .ok ()⟩
  | some user =>
    let resetExpiry := now + 60 * 60 * 1000
    let db1 := updateById db user.id (fun u =>
      { u with
        resetPasswordToken := some token,
        resetPasswordExpires := some resetExpiry })
    ⟨db1, [], [MailMsg.resetToken email token user.firstName],
      if mailOk then .ok () else .error (.external "mail dispatch failed")⟩

/-- The compound `findFirst` filter of `resetPassword`: matching token and
`resetPasswordExpires: \x7b gt: now \x7d`. -/
def hasLiveResetToken (u : User) (token : String) (now : Nat) : Bool :=
  u.resetPasswordToken == some token &&
    (match u.resetPasswordExpires with
     | some e => now < e
     | none => false)

/-- `AuthService.resetPassword(token, newPassword)`. -/
def resetPassword (db : List User) (token hashedNewPassword : String)
    (now : Nat) : Outcome Unit :=
  match db.find? (fun u => hasLiveResetToken u token now) with
  | none => ⟨db, [], [], .error (.badRequest "Invalid or expired reset token")⟩
  | some user =>
    ⟨updateById db user.id (fun u =>
      { u with
        password := hashedNewPassword,
        resetPasswordToken := none,
        resetPasswordExpires := none }), [], [], .ok ()⟩

/-- The JWT payload signed at login. -/
structure LoginPayload where
  sub : String
  email : String
  phone : String
  role : String
deriving Repr, DecidableEq

/-- The public identity projection returned by login (no password hash). -/
structure PublicUser where
  id : String
  firstName : String
  lastName : String
  email : String
  phone : String
  role : String
  isActive : Bool
  isPhoneVerified : Bool
deriving Repr, DecidableEq

/-- Login response: the signed token is modelled by its payload. -/
structure LoginResponse where
  accessToken : LoginPayload
  user : PublicUser
deriving Repr, DecidableEq

/-- `AuthService.logIn(\x7b phone, password \x7d)`. `bcryptCompare` is the
`bcrypt.compare` oracle (plaintext, stored hash). -/
def logIn (db : List User) (phone password : String)
    (bcryptCompare : String → String → Bool) : Outcome LoginResponse :=
  match findByPhone db phone with
  | none => ⟨db, [], [], .error (.unauthorized "Invalid credentials")⟩
  | some user =>
    if ¬ bcryptCompare password user.password then
      ⟨db, [], [], .error (.unauthorized "Invalid credentials")⟩
    else if ¬ user.isActive then
      ⟨db, [], [], .error (.forbidden "Your account has been deactivated")⟩
    else if ¬ user.isPhoneVerified then
      ⟨db, [], [], .error (.forbidden "Please verify your phone number before logging in")⟩
    else
      ⟨db, [], [],
        .ok
          { accessToken :=
              { sub := user.id, email := user.email, phone := user.phone,
                role := user.role },
            user :=
              { id := user.id, firstName := user.firstName,
                lastName := user.lastName, email := user.email,
                phone := user.phone, role := user.role,
                isActive := user.isActive,
                isPhoneVerified := user.isPhoneVerified } }⟩

/-- The decoded payload reaching `JwtStrategy.validate`; only `sub` and `id`
are read. `none` is an absent claim; `some ""` is present but falsy in JS. -/
structure JwtPayload where
  sub : Option String
  id : Option String
deriving Repr, DecidableEq

/-- JS `a || b` on string-valued claims: falls through on `undefined` and on
the empty string. -/
def jsOrString (a b : Option String) : Option String :=
  match a with
  | some s => if s = "" then b else some s
  | none => b

/-- The field projection selected by `JwtStrategy.validate` (password
excluded). -/
structure ValidatedUser where
  id : String
  firstName : String
  lastName : String
  email : String
  phone : String
  role : String
  isActive : Bool
deriving Repr, DecidableEq

/-- `JwtStrategy.validate(payload)`. The lookup by `userId` follows the spec
§6 store contract `findById(id) -> Identity?`: a missing resolved id matches
no identity. -/
def validate (db : List User) (payload : JwtPayload) : Except AuthError ValidatedUser :=
  let userId := jsOrString payload.sub payload.id
  match db.find? (fun u => some u.id == userId) with
  | none => .error (.unauthorized "Login first to access this endpoint.")
  | some user =>
    if ¬ user.isActive then .error (.unauthorized "User account is inactive")
    else
      .ok
        { id := user.id, firstName := user.firstName,
          lastName := user.lastName, email := user.email,
          phone := user.phone, role := user.role, isActive := user.isActive }

/-! ## Concrete fixtures used by evaluations and witnesses -/

def cPhone : String := "+2348012345678"

def baseUser : User :=
  { id := "u1", firstName := "Ada", lastName := "Obi",
    email := "ada@example.com", phone := cPhone, password := "storedhash",
    role := "USER", isActive := true, isPhoneVerified := false,
    isEmailVerified := true,
    phoneVerificationOTP := none, phoneVerificationOTPExpires := none,
    emailVerificationOTP := none, emailVerificationOTPExpires := none,
    resetPasswordOTP := none, resetPasswordOTPExpires := none,
    resetPasswordToken := none, resetPasswordExpires := none,
    lastOtpRequestTime := none, otpRequestCount := 0 }

/-- A user who exhausted the daily cap (count 3 of 3) on day 0. -/
def c1ExhaustedUser : User :=
  { baseUser with otpRequestCount := 3, lastOtpRequestTime := some 0 }

/-- A user who made 2 of 3 requests on day 0. -/
def c1PartialUser : User :=
  { baseUser with otpRequestCount := 2, lastOtpRequestTime := some 0 }

/-- A user with no prior request timestamp and 2 of 3 requests counted. -/
def c1FreshTwoUser : User :=
  { baseUser with otpRequestCount := 2 }

/-! ## C1 -/

/-- C1: the daily-counter reset does not take effect within the same call.
On day 1 (timestamp 86400000) an identity that exhausted the cap on day 0 is
still rejected with the daily-limit error — the store is reset to count 0 but
the cap check reads the stale pre-reset count 3. An identity with stale count
2 is permitted, but the on-success increment stores 3 (stale + 1), not 1, so
its very next same-day request would already hit the cap. This refutes the
claim that the cap check compares against the reset count and that the
increment stores 1. -/
theorem C1_daily_reset_stale_read :
    generatePasswordResetOTP defaultConfig [c1ExhaustedUser] cPhone 86400000 "111111" true
      = ⟨[{ c1ExhaustedUser with otpRequestCount := 0 }], [], [],
         .error (.badRequest (dailyLimitMessage 3))⟩
    ∧ generatePasswordResetOTP defaultConfig [c1PartialUser] cPhone 86400000 "111111" true
      = ⟨[{ c1PartialUser with
              resetPasswordOTP := some "111111",
              resetPasswordOTPExpires := some 87000000,
              lastOtpRequestTime := some 86400000,
              otpRequestCount := 3 }],
         [SmsMsg.passwordResetOTP cPhone "111111" "Ada"], [], .ok ()⟩ := by
  exact ⟨rfl, rfl⟩

/-! ## C2 -/

theorem findByPhone_singleton (u : User) : findByPhone [u] u.phone = some u := by
  simp [findByPhone, List.find?]

/-- Fixture for C2: populated phone-verification and reset slots. -/
def c2BothUser : User :=
  { baseUser with
    phoneVerificationOTP := some "123456", phoneVerificationOTPExpires := some 5000,
    resetPasswordOTP := some "654321", resetPasswordOTPExpires := some 7000 }

/-- C2 (counterexample): a consume attempt at a time exactly equal to the
expiry timestamp does NOT fail Expired — with the matching code it succeeds
(`new Date() > expires` is strict, so the boundary is an acceptance). -/
theorem C2_boundary_counterexample :
    (verifyPhone [c2BothUser] cPhone "123456" 5000).res = .ok ()
    ∧ (verifyPhone [c2BothUser] cPhone "123456" 5000).res
        ≠ .error (.badRequest "OTP has expired. Please request a new one") := by
  exact ⟨rfl, by decide⟩

/-- C2 (amended): the consume operations reject with the Expired error
precisely when `now > expiry` (strict); in particular an attempt at exactly
the expiry timestamp is not rejected as Expired and, with the matching code,
succeeds. Stated for `verifyPhone` and `resetPasswordWithOTP` on an identity
whose slots are populated and whose earlier guards pass. -/
theorem C2_expiry_boundary (u : User) (pcode rcode otp otp2 hashed : String)
    (pexp rexp now : Nat)
    (hv : u.isPhoneVerified = false)
    (hp1 : u.phoneVerificationOTP = some pcode)
    (hp2 : u.phoneVerificationOTPExpires = some pexp)
    (hpne : pcode ≠ "")
    (hr1 : u.resetPasswordOTP = some rcode)
    (hr2 : u.resetPasswordOTPExpires = some rexp)
    (hrne : rcode ≠ "") :
    ((verifyPhone [u] u.phone otp now).res
        = .error (.badRequest "OTP has expired. Please request a new one")
      ↔ pexp < now)
    ∧ ((resetPasswordWithOTP [u] u.phone otp2 hashed now).res
        = .error (.badRequest "OTP has expired. Please request a new one")
      ↔ rexp < now)
    ∧ (verifyPhone [u] u.phone pcode pexp).res = .ok ()
    ∧ (resetPasswordWithOTP [u] u.phone rcode hashed rexp).res = .ok () := by
  have hfind := findByPhone_singleton u
  refine ⟨?_, ?_, ?_, ?_⟩
  · simp only [verifyPhone, hfind, hv, Bool.false_eq_true, if_false, hp1, hp2,
      if_neg hpne]
    by_cases hlt : pexp < now
    · simp [hlt]
    · rw [if_neg hlt]
      refine ⟨fun h => ?_, fun h => absurd h hlt⟩
      revert h
      split
      · intro h; simp at h
      · intro h; simp at h
  · simp only [resetPasswordWithOTP, hfind, hr1, hr2, if_neg hrne]
    by_cases hlt : rexp < now
    · simp [hlt]
    · rw [if_neg hlt]
      refine ⟨fun h => ?_, fun h => absurd h hlt⟩
      revert h
      split
      · intro h; simp at h
      · intro h; simp at h
  · simp [verifyPhone, hfind, hv, hp1, hp2, if_neg hpne, lt_irrefl]
  · simp [resetPasswordWithOTP, hfind, hr1, hr2, if_neg hrne, lt_irrefl]

/-- C2 witness: the amended theorem applied to the fixture identity at
concrete inputs. -/
theorem C2_expiry_boundary_witness :
    (((verifyPhone [c2BothUser] c2BothUser.phone "999999" 6000).res
        = .error (.badRequest "OTP has expired. Please request a new one"))
      ↔ 5000 < 6000)
    ∧ (((resetPasswordWithOTP [c2BothUser] c2BothUser.phone "888888" "newhash" 6000).res
        = .error (.badRequest "OTP has expired. Please request a new one"))
      ↔ 7000 < 6000)
    ∧ (verifyPhone [c2BothUser] c2BothUser.phone "123456" 5000).res = .ok ()
    ∧ (resetPasswordWithOTP [c2BothUser] c2BothUser.phone "654321" "newhash" 7000).res
        = .ok () :=
  C2_expiry_boundary c2BothUser "123456" "654321" "999999" "888888" "newhash"
    5000 7000 6000 rfl rfl rfl (by decide) rfl rfl (by decide)

/-! ## C3 -/

/-- Fixture for C3: both a reset OTP and a reset token outstanding. -/
def c3User : User :=
  { baseUser with
    resetPasswordOTP := some "222222", resetPasswordOTPExpires := some 10000,
    resetPasswordToken := some "tok123", resetPasswordExpires := some 999999 }

/-- C3 (counterexample): a successful OTP-based password reset leaves the
outstanding reset token in place, and a successful token-based reset leaves
the outstanding reset OTP in place — the two reset credentials are not
invalidated together. -/
theorem C3_other_slot_survives_counterexample :
    (resetPasswordWithOTP [c3User] cPhone "222222" "newhash" 500).res = .ok ()
    ∧ ((resetPasswordWithOTP [c3User] cPhone "222222" "newhash" 500).db.map
          (fun u => u.resetPasswordToken)) = [some "tok123"]
    ∧ (resetPassword [c3User] "tok123" "newhash" 500).res = .ok ()
    ∧ ((resetPassword [c3User] "tok123" "newhash" 500).db.map
          (fun u => u.resetPasswordOTP)) = [some "222222"] := by
  exact ⟨rfl, rfl, rfl, rfl⟩

/-- C3 (amended): a successful password reset persists the new hash and
clears only the credential slot of its own flow: `resetPasswordWithOTP`
clears the reset OTP and its expiry but leaves the reset token slot
untouched, and `resetPassword` clears the reset token and its expiry but
leaves the reset OTP slot untouched. -/
theorem C3_reset_clears_own_slot (u : User) (rcode token hashed : String)
    (rexp texp now : Nat)
    (hr1 : u.resetPasswordOTP = some rcode)
    (hr2 : u.resetPasswordOTPExpires = some rexp)
    (hrne : rcode ≠ "") (hre : ¬ rexp < now)
    (ht1 : u.resetPasswordToken = some token)
    (ht2 : u.resetPasswordExpires = some texp)
    (htlive : now < texp) :
    resetPasswordWithOTP [u] u.phone rcode hashed now
      = ⟨[{ u with
              password := hashed,
              resetPasswordOTP := none,
              resetPasswordOTPExpires := none }], [], [], .ok ()⟩
    ∧ resetPassword [u] token hashed now
      = ⟨[{ u with
              password := hashed,
              resetPasswordToken := none,
              resetPasswordExpires := none }], [], [], .ok ()⟩ := by
  constructor
  · simp [resetPasswordWithOTP, findByPhone_singleton, hr1, hr2, if_neg hrne,
      hre, updateById]
  · have hlive : hasLiveResetToken u token now = true := by
      simp [hasLiveResetToken, ht1, ht2, htlive]
    simp [resetPassword, List.find?, hlive, updateById]

/-- C3 witness: the amended theorem applied to the fixture identity. -/
theorem C3_reset_clears_own_slot_witness :
    resetPasswordWithOTP [c3User] c3User.phone "222222" "newhash" 500
      = ⟨[{ c3User with
              password := "newhash",
              resetPasswordOTP := none,
              resetPasswordOTPExpires := none }], [], [], .ok ()⟩
    ∧ resetPassword [c3User] "tok123" "newhash" 500
      = ⟨[{ c3User with
              password := "newhash",
              resetPasswordToken := none,
              resetPasswordExpires := none }], [], [], .ok ()⟩ :=
  C3_reset_clears_own_slot c3User "222222" "tok123" "newhash" 10000 999999 500
    rfl rfl (by decide) (by decide) rfl rfl (by decide)

/-! ## C4 -/

/-- C4 (counterexample): after a successful phone verification, a second
attempt with the same code fails with the already-verified error, not with
the no-OTP-found error the claim states. -/
theorem C4_second_consume_counterexample :
    (verifyPhone (verifyPhone [c2BothUser] cPhone "123456" 100).db
        cPhone "123456" 100).res
      = .error (.badRequest "Phone number is already verified")
    ∧ (verifyPhone (verifyPhone [c2BothUser] cPhone "123456" 100).db
        cPhone "123456" 100).res
      ≠ .error (.badRequest "No OTP found. Please request a new one") := by
  exact ⟨rfl, by decide⟩

/-- C4 (amended): a successful consume clears the slot in the same update
that applies its side effect, and a second attempt with the same code never
succeeds again: for `resetPasswordWithOTP` it fails with the no-OTP-found
error, while for `verifyPhone` the already-verified guard fires first, so it
fails with the already-verified error instead. -/
theorem C4_single_use (u : User) (pcode rcode hashed hashed2 : String)
    (pexp rexp now now2 : Nat)
    (hv : u.isPhoneVerified = false)
    (hp1 : u.phoneVerificationOTP = some pcode)
    (hp2 : u.phoneVerificationOTPExpires = some pexp)
    (hpne : pcode ≠ "") (hpe : ¬ pexp < now)
    (hr1 : u.resetPasswordOTP = some rcode)
    (hr2 : u.resetPasswordOTPExpires = some rexp)
    (hrne : rcode ≠ "") (hre : ¬ rexp < now) :
    verifyPhone [u] u.phone pcode now
      = ⟨[{ u with
              isPhoneVerified := true,
              phoneVerificationOTP := none,
              phoneVerificationOTPExpires := none }], [], [], .ok ()⟩
    ∧ (verifyPhone (verifyPhone [u] u.phone pcode now).db u.phone pcode now2).res
        = .error (.badRequest "Phone number is already verified")
    ∧ resetPasswordWithOTP [u] u.phone rcode hashed now
      = ⟨[{ u with
              password := hashed,
              resetPasswordOTP := none,
              resetPasswordOTPExpires := none }], [], [], .ok ()⟩
    ∧ (resetPasswordWithOTP (resetPasswordWithOTP [u] u.phone rcode hashed now).db
         u.phone rcode hashed2 now2).res
        = .error (.badRequest "No OTP found. Please request a new one") := by
  have hv1 : verifyPhone [u] u.phone pcode now
      = ⟨[{ u with
              isPhoneVerified := true,
              phoneVerificationOTP := none,
              phoneVerificationOTPExpires := none }], [], [], .ok ()⟩ := by
    simp [verifyPhone, findByPhone_singleton, hv, hp1, hp2, if_neg hpne, hpe,
      updateById]
  have hro : resetPasswordWithOTP [u] u.phone rcode hashed now
      = ⟨[{ u with
              password := hashed,
              resetPasswordOTP := none,
              resetPasswordOTPExpires := none }], [], [], .ok ()⟩ := by
    simp [resetPasswordWithOTP, findByPhone_singleton, hr1, hr2, if_neg hrne,
      hre, updateById]
  refine ⟨hv1, ?_, hro, ?_⟩
  · rw [hv1]
    simp [verifyPhone, findByPhone, List.find?]
  · rw [hro]
    simp [resetPasswordWithOTP, findByPhone, List.find?]

/-- C4 witness: the amended theorem applied to the fixture identity. -/
theorem C4_single_use_witness :
    verifyPhone [c2BothUser] c2BothUser.phone "123456" 100
      = ⟨[{ c2BothUser with
              isPhoneVerified := true,
              phoneVerificationOTP := none,
              phoneVerificationOTPExpires := none }], [], [], .ok ()⟩
    ∧ (verifyPhone (verifyPhone [c2BothUser] c2BothUser.phone "123456" 100).db
        c2BothUser.phone "123456" 200).res
      = .error (.badRequest "Phone number is already verified")
    ∧ resetPasswordWithOTP [c2BothUser] c2BothUser.phone "654321" "h1" 100
      = ⟨[{ c2BothUser with
              password := "h1",
              resetPasswordOTP := none,
              resetPasswordOTPExpires := none }], [], [], .ok ()⟩
    ∧ (resetPasswordWithOTP
         (resetPasswordWithOTP [c2BothUser] c2BothUser.phone "654321" "h1" 100).db
         c2BothUser.phone "654321" "h2" 200).res
      = .error (.badRequest "No OTP found. Please request a new one") :=
  C4_single_use c2BothUser "123456" "654321" "h1" "h2" 5000 7000 100 200
    rfl rfl rfl (by decide) (by decide) rfl rfl (by decide) (by decide)

/-! ## C5 -/

theorem findById_singleton (u : User) : findById [u] u.id = some u := by
  simp [findById, List.find?]

/-- The identity state after a successful phone-verification OTP issue at
`now1`: the phone slot is populated and the shared rate-limit fields
(`lastOtpRequestTime`, `otpRequestCount`) are advanced. -/
def afterPhoneIssue (cfg : Config) (u : User) (now1 : Nat) (otp : String) : User :=
  { u with
    phoneVerificationOTP := some otp,
    phoneVerificationOTPExpires := some (now1 + cfg.otpExpiryMinutes * 60000),
    lastOtpRequestTime := some now1,
    otpRequestCount := u.otpRequestCount + 1 }

/-- C5: the rate-limit state is one per-identity counter shared by both OTP
purposes. A successful phone-verification issue stores `lastOtpRequestTime =
now1` and increments `otpRequestCount`; a password-reset issue within
`minIntervalMinutes` of it then fails RateLimited; and when the incremented
count reaches the daily cap, a same-day password-reset issue past the
interval fails RateLimited on that very counter. -/
theorem C5_shared_rate_limit (cfg : Config) (u : User) (otp otp2 otp3 : String)
    (now1 now2 now3 : Nat)
    (hv : u.isPhoneVerified = false)
    (hint : minIntervalHit u now1 cfg = false)
    (hreset : dailyResetDue u now1 = false)
    (hcap : u.otpRequestCount < cfg.otpDailyLimit)
    (hlt2 : now2 - now1 < cfg.otpMinIntervalMinutes * 60000)
    (hge3 : ¬ now3 - now1 < cfg.otpMinIntervalMinutes * 60000)
    (hday : toDateStringNat now1 = toDateStringNat now3)
    (hcap2 : cfg.otpDailyLimit ≤ u.otpRequestCount + 1) :
    generatePhoneVerificationOTP cfg [u] u.id now1 otp true
      = ⟨[afterPhoneIssue cfg u now1 otp],
         [SmsMsg.phoneVerificationOTP u.phone otp u.firstName], [], .ok ()⟩
    ∧ generatePasswordResetOTP cfg [afterPhoneIssue cfg u now1 otp] u.phone
        now2 otp2 true
      = ⟨[afterPhoneIssue cfg u now1 otp], [], [],
         .error (.badRequest (waitMessage (afterPhoneIssue cfg u now1 otp) now2 cfg))⟩
    ∧ generatePasswordResetOTP cfg [afterPhoneIssue cfg u now1 otp] u.phone
        now3 otp3 true
      = ⟨[afterPhoneIssue cfg u now1 otp], [], [],
         .error (.badRequest (dailyLimitMessage cfg.otpDailyLimit))⟩ := by
  have hfindp : findByPhone [afterPhoneIssue cfg u now1 otp] u.phone
      = some (afterPhoneIssue cfg u now1 otp) := by
    simp [findByPhone, List.find?, afterPhoneIssue]
  refine ⟨?_, ?_, ?_⟩
  · simp [generatePhoneVerificationOTP, findById_singleton, hv, hint, hreset,
      if_neg (Nat.not_le.mpr hcap), updateById, afterPhoneIssue]
  · have hhit : minIntervalHit (afterPhoneIssue cfg u now1 otp) now2 cfg = true := by
      simp [minIntervalHit, afterPhoneIssue, hlt2]
    simp [generatePasswordResetOTP, hfindp, hhit]
  · have hhit : minIntervalHit (afterPhoneIssue cfg u now1 otp) now3 cfg = false := by
      simp [minIntervalHit, afterPhoneIssue, hge3]
    have hdue : dailyResetDue (afterPhoneIssue cfg u now1 otp) now3 = false := by
      simp [dailyResetDue, afterPhoneIssue, hday]
    have hcnt : cfg.otpDailyLimit ≤ (afterPhoneIssue cfg u now1 otp).otpRequestCount := by
      simpa [afterPhoneIssue] using hcap2
    simp [generatePasswordResetOTP, hfindp, hhit, hdue, hcnt]

/-- C5 witness: a fresh identity with two prior requests issues a phone OTP
at t=1000000 (count becomes 3 of 3); a reset OTP one minute later is
RateLimited by the interval, and one at exactly the five-minute mark the
same day is RateLimited by the shared daily counter. -/
theorem C5_shared_rate_limit_witness :
    generatePhoneVerificationOTP defaultConfig [c1FreshTwoUser] c1FreshTwoUser.id
        1000000 "111111" true
      = ⟨[afterPhoneIssue defaultConfig c1FreshTwoUser 1000000 "111111"],
         [SmsMsg.phoneVerificationOTP c1FreshTwoUser.phone "111111"
            c1FreshTwoUser.firstName], [], .ok ()⟩
    ∧ generatePasswordResetOTP defaultConfig
        [afterPhoneIssue defaultConfig c1FreshTwoUser 1000000 "111111"]
        c1FreshTwoUser.phone 1060000 "222222" true
      = ⟨[afterPhoneIssue defaultConfig c1FreshTwoUser 1000000 "111111"], [], [],
         .error (.badRequest (waitMessage
           (afterPhoneIssue defaultConfig c1FreshTwoUser 1000000 "111111")
           1060000 defaultConfig))⟩
    ∧ generatePasswordResetOTP defaultConfig
        [afterPhoneIssue defaultConfig c1FreshTwoUser 1000000 "111111"]
        c1FreshTwoUser.phone 1300000 "333333" true
      = ⟨[afterPhoneIssue defaultConfig c1FreshTwoUser 1000000 "111111"], [], [],
         .error (.badRequest (dailyLimitMessage defaultConfig.otpDailyLimit))⟩ :=
  C5_shared_rate_limit defaultConfig c1FreshTwoUser "111111" "222222" "333333"
    1000000 1060000 1300000 rfl (by decide) (by decide) (by decide) (by decide)
    (by decide) (by decide) (by decide)

/-! ## C6 -/

/-- C6: forgot-password with an email belonging to no identity returns
success, changes no identity, and dispatches no email — indistinguishable
from the registered case by the response alone. -/
theorem C6_silent_unknown_email (db : List User) (email token : String)
    (now : Nat) (mailOk : Bool) (h : ∀ u ∈ db, u.email ≠ email) :
    generateResetToken db email token now mailOk = ⟨db, [], [], .ok ()⟩ := by
  have hf : findByEmail db email = none := by
    rw [findByEmail, List.find?_eq_none]
    intro u hu
    simpa using h u hu
  simp [generateResetToken, hf]

/-- C6 witness: the theorem applied to a store holding one identity and an
email registered to nobody. -/
theorem C6_silent_unknown_email_witness :
    generateResetToken [baseUser] "nobody@example.com" "tok999" 1000 true
      = ⟨[baseUser], [], [], .ok ()⟩ :=
  C6_silent_unknown_email [baseUser] "nobody@example.com" "tok999" 1000 true
    (by decide)

/-! ## C7 -/

/-- C7: when no identity holds the submitted token with an expiry strictly in
the future, `resetPassword` fails with the single BadRequest message and
leaves the store unchanged — an expired stored token and a never-issued token
produce this identical outcome. -/
theorem C7_invalid_or_expired_token (db : List User) (token hashed : String)
    (now : Nat) (h : ∀ u ∈ db, hasLiveResetToken u token now = false) :
    resetPassword db token hashed now
      = ⟨db, [], [], .error (.badRequest "Invalid or expired reset token")⟩ := by
  have hf : db.find? (fun u => hasLiveResetToken u token now) = none := by
    rw [List.find?_eq_none]
    intro u hu
    simp [h u hu]
  simp [resetPassword, hf]

/-- Fixture for C7: an identity whose reset token expired at t=100. -/
def c7ExpiredUser : User :=
  { baseUser with resetPasswordToken := some "tok123",
                  resetPasswordExpires := some 100 }

/-- C7 witness: at t=100 (the expiry itself) the stored token is dead, so
consuming it and consuming a never-issued token yield the same failure. -/
theorem C7_invalid_or_expired_token_witness :
    resetPassword [c7ExpiredUser] "tok123" "newhash" 100
      = ⟨[c7ExpiredUser], [], [],
         .error (.badRequest "Invalid or expired reset token")⟩
    ∧ resetPassword [c7ExpiredUser] "neverissued" "newhash" 100
      = ⟨[c7ExpiredUser], [], [],
         .error (.badRequest "Invalid or expired reset token")⟩ :=
  ⟨C7_invalid_or_expired_token [c7ExpiredUser] "tok123" "newhash" 100 (by decide),
   C7_invalid_or_expired_token [c7ExpiredUser] "neverissued" "newhash" 100 (by decide)⟩

/-! ## C8 -/

/-- C8: login check order — absent phone and wrong password both yield
Unauthorized with the identical message; an inactive account yields Forbidden;
an active account with an unverified phone yields Forbidden even though the
password matched. -/
theorem C8_login_check_order (db : List User) (u : User) (phone pw : String)
    (cmp : String → String → Bool) :
    ((∀ v ∈ db, v.phone ≠ phone) →
      logIn db phone pw cmp
        = ⟨db, [], [], .error (.unauthorized "Invalid credentials")⟩)
    ∧ (u.phone = phone → cmp pw u.password = false →
      logIn [u] phone pw cmp
        = ⟨[u], [], [], .error (.unauthorized "Invalid credentials")⟩)
    ∧ (u.phone = phone → cmp pw u.password = true → u.isActive = false →
      logIn [u] phone pw cmp
        = ⟨[u], [], [], .error (.forbidden "Your account has been deactivated")⟩)
    ∧ (u.phone = phone → cmp pw u.password = true → u.isActive = true →
      u.isPhoneVerified = false →
      logIn [u] phone pw cmp
        = ⟨[u], [], [],
           .error (.forbidden "Please verify your phone number before logging in")⟩) := by
  refine ⟨?_, ?_, ?_, ?_⟩
  · intro h
    have hf : findByPhone db phone = none := by
      rw [findByPhone, List.find?_eq_none]
      intro v hv
      simpa using h v hv
    simp [logIn, hf]
  · intro hph hcmp
    subst hph
    simp [logIn, findByPhone_singleton, hcmp]
  · intro hph hcmp hact
    subst hph
    simp [logIn, findByPhone_singleton, hcmp, hact]
  · intro hph hcmp hact hver
    subst hph
    simp [logIn, findByPhone_singleton, hcmp, hact, hver]

/-- Fixture for C8: a verified inactive account and an unverified active one
share nothing; a single stored-hash-equality oracle stands in for bcrypt. -/
def c8InactiveUser : User :=
  { baseUser with isActive := false, isPhoneVerified := true }

/-- C8 witness: the four branches evaluated on concrete identities with the
oracle accepting exactly the stored hash. -/
theorem C8_login_check_order_witness :
    logIn [] "+2340000000000" "pw" (fun p h => p == h)
      = ⟨[], [], [], .error (.unauthorized "Invalid credentials")⟩
    ∧ logIn [baseUser] cPhone "wrongpw" (fun p h => p == h)
      = ⟨[baseUser], [], [], .error (.unauthorized "Invalid credentials")⟩
    ∧ logIn [c8InactiveUser] cPhone "storedhash" (fun p h => p == h)
      = ⟨[c8InactiveUser], [], [],
         .error (.forbidden "Your account has been deactivated")⟩
    ∧ logIn [baseUser] cPhone "storedhash" (fun p h => p == h)
      = ⟨[baseUser], [], [],
         .error (.forbidden "Please verify your phone number before logging in")⟩ :=
  ⟨(C8_login_check_order [] baseUser "+2340000000000" "pw" (fun p h => p == h)).1
      (by decide),
   (C8_login_check_order [baseUser] baseUser cPhone "wrongpw"
      (fun p h => p == h)).2.1 rfl (by decide),
   (C8_login_check_order [c8InactiveUser] c8InactiveUser cPhone "storedhash"
      (fun p h => p == h)).2.2.1 rfl (by decide) rfl,
   (C8_login_check_order [baseUser] baseUser cPhone "storedhash"
      (fun p h => p == h)).2.2.2 rfl (by decide) rfl rfl⟩

/-! ## C9 -/

/-- C9: when the SMS dispatch of a password-reset OTP fails after the OTP has
been persisted, the caller receives the distinct delivery-failure error while
the store keeps the new OTP, its expiry, the updated `lastOtpRequestTime`, and
the incremented `otpRequestCount` — no rollback. -/
theorem C9_sms_failure_keeps_state (cfg : Config) (u : User) (otp : String)
    (now : Nat)
    (hint : minIntervalHit u now cfg = false)
    (hreset : dailyResetDue u now = false)
    (hcap : u.otpRequestCount < cfg.otpDailyLimit) :
    generatePasswordResetOTP cfg [u] u.phone now otp false
      = ⟨[{ u with
              resetPasswordOTP := some otp,
              resetPasswordOTPExpires := some (now + cfg.otpExpiryMinutes * 60000),
              lastOtpRequestTime := some now,
              otpRequestCount := u.otpRequestCount + 1 }],
         [SmsMsg.passwordResetOTP u.phone otp u.firstName], [],
         .error (.badRequest "Failed to send OTP. Please try again later.")⟩ := by
  simp [generatePasswordResetOTP, findByPhone_singleton, hint, hreset,
    if_neg (Nat.not_le.mpr hcap), updateById]

/-- C9 witness: the theorem evaluated on a fresh identity at t=1000 with the
SMS transport failing. -/
theorem C9_sms_failure_keeps_state_witness :
    generatePasswordResetOTP defaultConfig [baseUser] baseUser.phone 1000
        "111111" false
      = ⟨[{ baseUser with
              resetPasswordOTP := some "111111",
              resetPasswordOTPExpires := some 601000,
              lastOtpRequestTime := some 1000,
              otpRequestCount := 1 }],
         [SmsMsg.passwordResetOTP baseUser.phone "111111" baseUser.firstName], [],
         .error (.badRequest "Failed to send OTP. Please try again later.")⟩ :=
  C9_sms_failure_keeps_state defaultConfig baseUser "111111" 1000
    (by decide) (by decide) (by decide)

/-! ## C10 -/

/-- C10: session validation resolves the identity from `sub` when it is a
non-empty claim and otherwise falls back to `id`: a payload carrying only an
`id` authenticates exactly as one carrying that value in `sub` (whatever `id`
accompanies the `sub`), a payload with neither claim is rejected Unauthorized
through the failed lookup, and the fallback does authenticate the user whose
stored id matches. -/
theorem C10_sub_fallback_id (db : List User) (u : User) (s : String)
    (i : Option String) (hs : s ≠ "") :
    (validate db { sub := some s, id := i }
      = validate db { sub := none, id := some s })
    ∧ (validate db { sub := none, id := none }
      = .error (.unauthorized "Login first to access this endpoint."))
    ∧ (u.id = s → u.isActive = true →
      validate [u] { sub := none, id := some s }
        = .ok { id := u.id, firstName := u.firstName, lastName := u.lastName,
                email := u.email, phone := u.phone, role := u.role,
                isActive := u.isActive }) := by
  refine ⟨?_, ?_, ?_⟩
  · simp [validate, jsOrString, hs]
  · have hf : db.find? (fun (_ : User) => false) = none := by
      rw [List.find?_eq_none]
      intro v _
      simp
    simp [validate, jsOrString, hf]
  · intro hid hact
    subst hid
    simp [validate, jsOrString, List.find?, hact]

/-- C10 witness: for the stored identity, a token with only `id := "u1"` and
one with `sub := "u1"` (plus a junk `id`) authenticate identically; the empty
payload is rejected. -/
theorem C10_sub_fallback_id_witness :
    (validate [baseUser] { sub := some "u1", id := some "zzz" }
      = validate [baseUser] { sub := none, id := some "u1" })
    ∧ (validate [baseUser] { sub := none, id := none }
      = .error (.unauthorized "Login first to access this endpoint."))
    ∧ (validate [baseUser] { sub := none, id := some "u1" }
      = .ok { id := baseUser.id, firstName := baseUser.firstName,
              lastName := baseUser.lastName, email := baseUser.email,
              phone := baseUser.phone, role := baseUser.role,
              isActive := baseUser.isActive }) :=
  ⟨(C10_sub_fallback_id [baseUser] baseUser "u1" (some "zzz") (by decide)).1,
   (C10_sub_fallback_id [baseUser] baseUser "u1" (some "zzz") (by decide)).2.1,
   (C10_sub_fallback_id [baseUser] baseUser "u1" (some "zzz") (by decide)).2.2
     rfl rfl⟩
